import Mathlib

/-!
Shallow embedding of mautrix-syncproxy's per-target sync engine, transaction
dispatcher, registry and lifecycle logic, with theorems checking the design
document's claims against the code.

Conventions of the embedding:
* Go strings become `String`, Go slices become `List`, Go maps become
  association lists (`List (key × value)` with `List.lookup`).
* `mautrix.OTKCount` (a struct of integer counters) is modelled as a
  structure of two `Int` fields compared structurally, exactly as Go's
  `!=` compares it.
* Durations are in nanoseconds (`time.Duration` is an integer nanosecond
  count in Go); the relevant constants are 2s and 120s.
* Fallible steps are modelled by explicit outcome types; the HTTP exchange
  performed by `postTransaction` is an input to the embedded function, and
  the function also reports whether the request was actually issued.
-/

namespace Syncproxy

/-- Model of mautrix.OTKCount: integer one-time-key counters, compared
structurally. -/
structure OTKCount where
  curve25519 : Int
  signedCurve25519 : Int
  deriving DecidableEq, Repr

/-- Model of a to-device event: opaque payload plus the to_user_id and
to_device_id fields that the sync loop stamps onto each event. -/
structure Event where
  content : String
  toUserID : String
  toDeviceID : String
  deriving DecidableEq, Repr

/-- Device-list delta from a sync response: changed and left user sets. -/
structure DeviceLists where
  changed : List String
  left : List String
  deriving DecidableEq, Repr

/-- The slice of mautrix.RespSync that the engine reads. -/
structure RespSync where
  nextBatch : String
  toDeviceEvents : List Event
  deviceLists : DeviceLists
  deviceOTKCount : OTKCount
  deriving DecidableEq, Repr

/-- Model of appservice.Transaction as populated by syncToTransaction.
The one-target OTK-count map is a single optional (user id, count) pair. -/
structure Transaction where
  ephemeralEvents : List Event
  msc2409EphemeralEvents : List Event
  deviceLists : Option DeviceLists
  msc3202DeviceLists : Option DeviceLists
  deviceOTKCount : Option (String × OTKCount)
  msc3202DeviceOTKCount : Option (String × OTKCount)
  deriving DecidableEq, Repr

/-- The zero-valued transaction (Go's zero value for the struct). -/
def emptyTransaction : Transaction :=
  { ephemeralEvents := []
    msc2409EphemeralEvents := []
    deviceLists := none
    msc3202DeviceLists := none
    deviceOTKCount := none
    msc3202DeviceOTKCount := none }

/-- Embedding of syncToTransaction (sync.go): builds the transaction from a
sync response, stamping user and device ids onto to-device events, including
the device lists when changed or left is non-empty, and including the OTK
count map when sendOTKs is set. -/
def syncToTransaction (resp : Option RespSync) (userID deviceID : String)
    (sendOTKs : Bool) : Transaction :=
  match resp with
  | none => emptyTransaction
  | some r =>
    let txn0 := emptyTransaction
    let txn1 :=
      if r.toDeviceEvents.length > 0 then
        let evts := r.toDeviceEvents.map fun e =>
          { e with toUserID := userID, toDeviceID := deviceID }
        { txn0 with ephemeralEvents := evts, msc2409EphemeralEvents := evts }
      else txn0
    let txn2 :=
      if r.deviceLists.changed.length > 0 ∨ r.deviceLists.left.length > 0 then
        { txn1 with deviceLists := some r.deviceLists
                    msc3202DeviceLists := some r.deviceLists }
      else txn1
    if sendOTKs then
      { txn2 with deviceOTKCount := some (userID, r.deviceOTKCount)
                  msc3202DeviceOTKCount := some (userID, r.deviceOTKCount) }
    else txn2

/-- The emission condition of the sync loop (sync.go line 88): a transaction
is built and sent when there are to-device events, or the OTK count differs
from the previous one, or no OTK count has been sent yet in this loop run, or
the device-list changed set is non-empty. -/
def syncEmitCondition (resp : RespSync) (prevOTKCount : OTKCount)
    (otkCountSent : Bool) : Bool :=
  decide (resp.toDeviceEvents.length > 0) ||
  decide (resp.deviceOTKCount ≠ prevOTKCount) ||
  !otkCountSent ||
  decide (resp.deviceLists.changed.length > 0)

/-- The emission condition as the design document words it: a transaction is
emitted if any of the three parts is non-empty or changed, where the
device-list part counts as non-empty when the changed or the left set is
non-empty. Written from the spec for comparison with syncEmitCondition. -/
def specEmitCondition (resp : RespSync) (prevOTKCount : OTKCount)
    (otkCountSent : Bool) : Bool :=
  decide (resp.toDeviceEvents ≠ []) ||
  decide (resp.deviceLists.changed ≠ [] ∨ resp.deviceLists.left ≠ []) ||
  decide (resp.deviceOTKCount ≠ prevOTKCount) ||
  !otkCountSent

/-- Persistent and identity fields of a SyncTarget record. -/
structure SyncTarget where
  appserviceID : String
  botAccessToken : String
  hsToken : String
  address : String
  userID : String
  deviceID : String
  isProxy : Bool
  nextBatch : String
  active : Bool
  deriving DecidableEq, Repr

/-- Embedding of SyncTarget.SetNextBatch: stores the new token in the record
and reports whether a database write was issued (the write is skipped when
the token is unchanged). -/
def SetNextBatch (target : SyncTarget) (nextBatch : String) :
    SyncTarget × Bool :=
  if target.nextBatch = nextBatch then (target, false)
  else ({ target with nextBatch := nextBatch }, true)

/-- Embedding of SyncTarget.SetActive: stores the new flag and reports
whether a database write was issued. -/
def SetActive (target : SyncTarget) (active : Bool) : SyncTarget × Bool :=
  if target.active = active then (target, false)
  else ({ target with active := active }, true)

/-- Loop-local state of one sync run: the OTK bookkeeping plus the target
record whose nextBatch field the loop advances. -/
structure SyncLoopState where
  otkCountSent : Bool
  prevOTKCount : OTKCount
  target : SyncTarget
  deriving DecidableEq, Repr

/-- Observable actions of one successful sync iteration, in order. -/
inductive SyncEffect
  | postTransaction (txn : Transaction)
  | setNextBatch (token : String)
  deriving DecidableEq, Repr

/-- True exactly on a delivery effect. -/
def isPostTransaction : SyncEffect → Bool
  | SyncEffect.postTransaction _ => true
  | SyncEffect.setNextBatch _ => false

/-- One iteration of the sync loop on a successful response with a successful
delivery (sync.go lines 88-101): when the emission condition holds, build the
transaction (recomputing the OTK-change test for the sendOTKs argument),
deliver it, update the OTK bookkeeping, and in all cases store the new next
batch token afterwards. -/
def syncIteration (st : SyncLoopState) (resp : RespSync) :
    List SyncEffect × SyncLoopState :=
  if syncEmitCondition resp st.prevOTKCount st.otkCountSent then
    let txn := syncToTransaction (some resp) st.target.userID
      st.target.deviceID
      (decide (resp.deviceOTKCount ≠ st.prevOTKCount) || !st.otkCountSent)
    ([SyncEffect.postTransaction txn, SyncEffect.setNextBatch resp.nextBatch],
     { otkCountSent := true
       prevOTKCount := resp.deviceOTKCount
       target := (SetNextBatch st.target resp.nextBatch).1 })
  else
    ([SyncEffect.setNextBatch resp.nextBatch],
     { st with target := (SetNextBatch st.target resp.nextBatch).1 })

/-- Runs the sync loop over a list of successful responses, collecting each
iteration's effects. -/
def runSyncIterations : SyncLoopState → List RespSync → List (List SyncEffect)
  | _, [] => []
  | st, r :: rs =>
    let step := syncIteration st r
    step.1 :: runSyncIterations step.2 rs

/-- True when the iteration delivered a transaction carrying an OTK count. -/
def emitsOTKCount (effects : List SyncEffect) : Bool :=
  effects.any fun e =>
    match e with
    | SyncEffect.postTransaction txn => txn.deviceOTKCount.isSome
    | SyncEffect.setNextBatch _ => false

/-- True when the iteration delivered any transaction at all. -/
def emitsTransaction (effects : List SyncEffect) : Bool :=
  effects.any isPostTransaction

/-- Process configuration read from the environment; only the
EXPECT_SYNCHRONOUS flag matters to the dispatcher. -/
structure Config where
  expectSynchronous : Bool
  deriving DecidableEq, Repr

/-- The error code whose presence in a non-2xx JSON error body marks the
websocket-not-connected condition. -/
def errFiMauWsNotConnectedCode : String := "FI.MAU.WS_NOT_CONNECTED"

/-- SendStatus value meaning per-target delivery succeeded. -/
def sendStatusOK : String := "ok"

/-- SendStatus value meaning the downstream websocket is not connected. -/
def sendStatusWebsocketNotConnected : String := "websocket-not-connected"

/-- Facets of a JSON response body as the two decoders in postTransaction
read it: the errcode field (empty string when absent), the synchronous flag
(false when absent), and the sent_to map (absent when the field is missing
or null). -/
structure JSONRespFields where
  errcode : String
  synchronous : Bool
  sentTo : Option (List (String × String))
  deriving DecidableEq, Repr

/-- Result of the HTTP exchange attempted by postTransaction: a transport
error, or a status code together with the response body (none when the body
is not JSON). -/
inductive HTTPResult
  | transportError
  | ok (status : Nat) (body : Option JSONRespFields)
  deriving DecidableEq, Repr

/-- Classification of one postTransaction return value as tryPostTransaction
sees it: nil, the errWebsocketNotConnected sentinel, or any other error
(which carries its message). -/
inductive PostOutcome
  | success
  | wsNotConnected
  | retryableError (reason : String)
  deriving DecidableEq, Repr

/-- Embedding of postTransaction: one delivery attempt. The first component
reports whether the HTTP request was actually issued; the urlOK flag stands
for the target address parsing successfully in createTxnURL. The hs_token
emptiness check happens after building the request but before sending it, so
an empty hs_token returns before any request is issued. -/
def postTransaction (target : SyncTarget) (cfg : Config) (urlOK : Bool)
    (httpResult : HTTPResult) : Bool × PostOutcome :=
  if !urlOK then
    (false, PostOutcome.retryableError "failed to form transaction URL")
  else if target.hsToken.length = 0 then
    (false, PostOutcome.retryableError "target is missing hs_token")
  else
    match httpResult with
    | HTTPResult.transportError =>
      (true, PostOutcome.retryableError "failed to send transaction")
    | HTTPResult.ok status body =>
      if status ≥ 300 ∨ status < 200 then
        match body with
        | none =>
          (true, PostOutcome.retryableError "HTTP error with non-JSON body")
        | some j =>
          if j.errcode = errFiMauWsNotConnectedCode then
            (true, PostOutcome.wsNotConnected)
          else
            (true, PostOutcome.retryableError "HTTP error response")
      else
        match body with
        | none =>
          (true, PostOutcome.retryableError
            "non-JSON body in successful response")
        | some j =>
          if !j.synchronous && cfg.expectSynchronous then
            (true, PostOutcome.retryableError
              "server did not confirm synchronous delivery support")
          else if j.synchronous then
            match j.sentTo with
            | none =>
              (true, PostOutcome.retryableError
                "synchronous confirmation missing sent_to field")
            | some sentTo =>
              match sentTo.lookup target.appserviceID with
              | some s =>
                if s = sendStatusOK then (true, PostOutcome.success)
                else if s = sendStatusWebsocketNotConnected then
                  (true, PostOutcome.wsNotConnected)
                else
                  (true, PostOutcome.retryableError
                    "server did not reach the appservice")
              | none =>
                (true, PostOutcome.retryableError
                  "server did not confirm synchronous delivery")
          else (true, PostOutcome.success)

/-- Final results tryPostTransaction can return. -/
inductive TryOutcome
  | success
  | ctxCanceled
  | wsNotConnected
  deriving DecidableEq, Repr

/-- What the dispatch loop does after one attempt: finish with a result, or
sleep the backoff interval and try again. -/
inductive TryAction
  | finish (outcome : TryOutcome)
  | retryAfterBackoff
  deriving DecidableEq, Repr

/-- Embedding of the per-attempt decision of tryPostTransaction: nil returns
success; with a cancelled context the context error is returned; the
errWebsocketNotConnected sentinel is returned without further retries; every
other error leads to a backoff sleep and another attempt. -/
def tryPostStep (ctxCancelled : Bool) (r : PostOutcome) : TryAction :=
  if r = PostOutcome.success then TryAction.finish TryOutcome.success
  else if ctxCancelled then TryAction.finish TryOutcome.ctxCanceled
  else if r = PostOutcome.wsNotConnected then
    TryAction.finish TryOutcome.wsNotConnected
  else TryAction.retryAfterBackoff

/-- Error kinds carried in an errorRequest payload. -/
inductive ProxyError
  | loggedOut
  | unknown
  deriving DecidableEq, Repr

/-- Errors with which SyncTarget.sync can return, preserving the wrapping
structure that errors.Is unwraps: txnSend wraps the result of a failed
tryPostTransaction call. -/
inductive SyncError
  | unknownToken
  | ctxCanceled
  | txnSend (inner : TryOutcome)
  | filterFailed
  deriving DecidableEq, Repr

/-- Embedding of sync.go lines 92-95: a non-nil tryPostTransaction result
makes the sync loop return a wrapped error; on success the loop continues
(no error). -/
def syncAfterDelivery (out : TryOutcome) : Option SyncError :=
  match out with
  | TryOutcome.success => none
  | o => some (SyncError.txnSend o)

/-- Embedding of the error-notification decision in SyncTarget.Start (lines
176-192): no notification when the sync error is context.Canceled (also
through wrapping), a logged-out notification when it is MUnknownToken, and
an unknown-error notification otherwise. -/
def notificationFor (err : SyncError) : Option ProxyError :=
  match err with
  | SyncError.ctxCanceled => none
  | SyncError.txnSend TryOutcome.ctxCanceled => none
  | SyncError.unknownToken => some ProxyError.loggedOut
  | SyncError.txnSend TryOutcome.wsNotConnected => some ProxyError.unknown
  | SyncError.txnSend TryOutcome.success => some ProxyError.unknown
  | SyncError.filterFailed => some ProxyError.unknown

/-- Embedding of GetOrSetTarget: under the registry lock, return the
existing entry for the id if present; otherwise install the candidate (when
non-nil) and return nil. The registry map is an association list. -/
def GetOrSetTarget (targets : List (String × SyncTarget))
    (appserviceID : String) (newTarget : Option SyncTarget) :
    Option SyncTarget × List (String × SyncTarget) :=
  match targets.lookup appserviceID with
  | some target => (some target, targets)
  | none =>
    match newTarget with
    | some nt => (none, (appserviceID, nt) :: targets)
    | none => (none, targets)

/-- Retry-backoff constants, in nanoseconds (2s and 120s). -/
def initialSyncRetrySleep : Nat := 2000000000

/-- Cap of the sync-loop retry interval (120s in nanoseconds). -/
def maxSyncRetryInterval : Nat := 120000000000

/-- Initial transaction retry sleep (2s in nanoseconds). -/
def initialTransactionRetrySleep : Nat := 2000000000

/-- Cap of the transaction retry interval (120s in nanoseconds). -/
def maxTransactionRetryInterval : Nat := 120000000000

/-- Backoff update after a retried sync iteration (sync.go lines 81-84):
double, then clamp to the cap. -/
def nextSyncRetryIn (retryIn : Nat) : Nat :=
  let r := retryIn * 2
  if r > maxSyncRetryInterval then maxSyncRetryInterval else r

/-- Backoff update after a retried delivery attempt (tryPostTransaction
lines 126-129): double, then clamp to the cap. -/
def nextTransactionRetryIn (retryIn : Nat) : Nat :=
  let r := retryIn * 2
  if r > maxTransactionRetryInterval then maxTransactionRetryInterval else r

/-- The sleep used before the nth consecutive retry of the sync loop within
one uninterrupted failure streak. -/
def syncRetryDelay : Nat → Nat
  | 0 => initialSyncRetrySleep
  | n + 1 => nextSyncRetryIn (syncRetryDelay n)

/-- The sleep used before the nth consecutive retry of one
tryPostTransaction call. -/
def transactionRetryDelay : Nat → Nat
  | 0 => initialTransactionRetrySleep
  | n + 1 => nextTransactionRetryIn (transactionRetryDelay n)

/-- Evolution of the sync loop's retryIn variable across one iteration: a
failed poll doubles and clamps it after the sleep; a successful poll resets
it to the initial sleep (sync.go line 87). -/
def syncRetryInAfterIteration (retryIn : Nat) (needsRetry : Bool) : Nat :=
  if needsRetry then nextSyncRetryIn retryIn else initialTransactionRetrySleep

/-- Embedding of the PUT handler's path for an already-registered target
(startSync): the stored target is compared with the request body on the five
credential and address fields (is_proxy excluded); when any differs those
five fields are copied onto the stored target (is_proxy again excluded) and
an upsert is issued, otherwise nothing is written. Returns the updated
target and whether an upsert was issued. -/
def startSyncPutExisting (target req : SyncTarget) : SyncTarget × Bool :=
  if target.botAccessToken ≠ req.botAccessToken ∨ target.hsToken ≠ req.hsToken
      ∨ target.address ≠ req.address ∨ target.userID ≠ req.userID
      ∨ target.deviceID ≠ req.deviceID then
    ({ target with
        botAccessToken := req.botAccessToken
        hsToken := req.hsToken
        address := req.address
        userID := req.userID
        deviceID := req.deviceID }, true)
  else (target, false)

/-- Program counter of a thread executing SyncTarget.Start: read the running
flag, possibly cancel the previous loop, acquire the per-target mutex, set
the running flag and begin the loop, run the sync loop, run the deferred
cleanup (clear running and the cancel handle), release the mutex. -/
inductive StartPC
  | checkRunning
  | cancelPrev
  | acquireLock
  | enterLoop
  | inLoop
  | exitCleanup
  | releaseLock
  | done
  deriving DecidableEq, Repr

/-- Shared state of one target plus the program counters of the threads
(identified by naturals) executing Start on it. -/
structure StartState where
  lockHolder : Option Nat
  running : Bool
  pc : Nat → StartPC

/-- Updates one thread's program counter. -/
def setPC (s : StartState) (t : Nat) (p : StartPC) : StartState :=
  { s with pc := fun u => if u = t then p else s.pc u }

/-- Interleaving small-step semantics of SyncTarget.Start: the unsynchronized
read of the running flag branches to Stop (cancel) or straight to the mutex;
mutex acquisition only fires when no thread holds it; the running flag is set
under the mutex at loop entry and cleared in the deferred cleanup; the mutex
is released last. -/
inductive StartStep : StartState → StartState → Prop
  | checkTrue (s : StartState) (t : Nat) :
      s.pc t = StartPC.checkRunning → s.running = true →
      StartStep s (setPC s t StartPC.cancelPrev)
  | checkFalse (s : StartState) (t : Nat) :
      s.pc t = StartPC.checkRunning → s.running = false →
      StartStep s (setPC s t StartPC.acquireLock)
  | cancel (s : StartState) (t : Nat) :
      s.pc t = StartPC.cancelPrev →
      StartStep s (setPC s t StartPC.acquireLock)
  | acquire (s : StartState) (t : Nat) :
      s.pc t = StartPC.acquireLock → s.lockHolder = none →
      StartStep s { setPC s t StartPC.enterLoop with lockHolder := some t }
  | enter (s : StartState) (t : Nat) :
      s.pc t = StartPC.enterLoop →
      StartStep s { setPC s t StartPC.inLoop with running := true }
  | loopEnd (s : StartState) (t : Nat) :
      s.pc t = StartPC.inLoop →
      StartStep s (setPC s t StartPC.exitCleanup)
  | cleanup (s : StartState) (t : Nat) :
      s.pc t = StartPC.exitCleanup →
      StartStep s { setPC s t StartPC.releaseLock with running := false }
  | release (s : StartState) (t : Nat) :
      s.pc t = StartPC.releaseLock →
      StartStep s { setPC s t StartPC.done with lockHolder := none }

/-- Initial states: the mutex is free, no loop is running, and every thread
is either about to call Start or not involved. -/
def startInit (s : StartState) : Prop :=
  s.lockHolder = none ∧ s.running = false ∧
  ∀ t, s.pc t = StartPC.checkRunning ∨ s.pc t = StartPC.done

/-- States reachable from an initial state by interleaved Start steps. -/
inductive StartReachable : StartState → Prop
  | init (s : StartState) : startInit s → StartReachable s
  | step (s s' : StartState) :
      StartReachable s → StartStep s s' → StartReachable s'

/-- Program points between mutex acquisition and mutex release. -/
def holdsLockSection (p : StartPC) : Prop :=
  p = StartPC.enterLoop ∨ p = StartPC.inLoop ∨ p = StartPC.exitCleanup ∨
  p = StartPC.releaseLock

/-- A concrete target record for evaluations. -/
def sampleTarget : SyncTarget :=
  { appserviceID := "T1"
    botAccessToken := "bot-token"
    hsToken := "hs-token"
    address := "http://downstream"
    userID := "@user:example.com"
    deviceID := "DEVICE1"
    isProxy := false
    nextBatch := "tok0"
    active := true }

/-- A second concrete target record, distinct from sampleTarget. -/
def sampleTarget2 : SyncTarget :=
  { sampleTarget with botAccessToken := "other-token", deviceID := "DEVICE2" }

/-- sampleTarget with the downstream shared token missing. -/
def noTokenTarget : SyncTarget := { sampleTarget with hsToken := "" }

/-- A sync response carrying only a one-time-key count: no to-device events
and no device-list changes. -/
def otkOnlyResp (token : String) (count : Int) : RespSync :=
  { nextBatch := token
    toDeviceEvents := []
    deviceLists := { changed := [], left := [] }
    deviceOTKCount := { curve25519 := count, signedCurve25519 := 0 } }

/-- A sync response whose only non-empty part is the device-list left set. -/
def leftOnlyResp : RespSync :=
  { nextBatch := "tokL"
    toDeviceEvents := []
    deviceLists := { changed := [], left := ["@other:example.com"] }
    deviceOTKCount := { curve25519 := 0, signedCurve25519 := 0 } }

/-- Loop state after an OTK count of 5 has been sent. -/
def otkSentState : SyncLoopState :=
  { otkCountSent := true
    prevOTKCount := { curve25519 := 5, signedCurve25519 := 0 }
    target := sampleTarget }

/-- Initial demo state for the Start semantics: one thread about to run
Start, mutex free, no loop running. -/
def startDemo0 : StartState :=
  { lockHolder := none, running := false, pc := fun _ => StartPC.checkRunning }

/-- Demo state after thread 0 read running = false. -/
def startDemo1 : StartState := setPC startDemo0 0 StartPC.acquireLock

/-- Demo state after thread 0 acquired the mutex. -/
def startDemo2 : StartState :=
  { setPC startDemo1 0 StartPC.enterLoop with lockHolder := some 0 }

/-- Demo state after thread 0 set the running flag and entered the loop. -/
def startDemo3 : StartState :=
  { setPC startDemo2 0 StartPC.inLoop with running := true }

/-- Claim C1 counterexample: a successful response whose only non-empty part
is the device-list left set satisfies the spec's emission condition, yet the
code's emission condition is false and the iteration delivers nothing — it
only stores the new next-batch token. -/
theorem c1_counterexample :
    specEmitCondition leftOnlyResp
      { curve25519 := 0, signedCurve25519 := 0 } true = true ∧
    syncEmitCondition leftOnlyResp
      { curve25519 := 0, signedCurve25519 := 0 } true = false ∧
    (syncIteration
      { otkCountSent := true
        prevOTKCount := { curve25519 := 0, signedCurve25519 := 0 }
        target := sampleTarget } leftOnlyResp).1 =
      [SyncEffect.setNextBatch "tokL"] := by
  decide

/-- Claim C1 (amended): a transaction is emitted exactly when the to-device
event list is non-empty, or the device-list changed set is non-empty, or the
one-time-key count changed since the last send or has not yet been sent in
this loop lifetime; the device-list left set does not participate in the
trigger. -/
theorem c1_amended_emit_condition (resp : RespSync) (prev : OTKCount)
    (sent : Bool) :
    syncEmitCondition resp prev sent =
      (decide (resp.toDeviceEvents ≠ []) ||
       decide (resp.deviceLists.changed ≠ []) ||
       decide (resp.deviceOTKCount ≠ prev) || !sent) := by
  have e1 : decide (resp.toDeviceEvents.length > 0) =
      decide (resp.toDeviceEvents ≠ []) :=
    decide_eq_decide.mpr List.length_pos
  have e2 : decide (resp.deviceLists.changed.length > 0) =
      decide (resp.deviceLists.changed ≠ []) :=
    decide_eq_decide.mpr List.length_pos
  unfold syncEmitCondition
  rw [e1, e2]
  generalize decide (resp.toDeviceEvents ≠ []) = a
  generalize decide (resp.deviceLists.changed ≠ []) = b
  generalize decide (resp.deviceOTKCount ≠ prev) = c
  cases a <;> cases b <;> cases c <;> cases sent <;> rfl

/-- Claim C5: over successful responses with one-time-key counts 5, 5, 7, 7
(no to-device events and no device-list changes), the loop emits a
transaction carrying an OTK count on iterations 1 and 3, and emits nothing
at all on iterations 2 and 4. -/
theorem c5_otk_emission_pattern :
    ((runSyncIterations
      { otkCountSent := false
        prevOTKCount := { curve25519 := 0, signedCurve25519 := 0 }
        target := sampleTarget }
      [otkOnlyResp "tok1" 5, otkOnlyResp "tok2" 5,
       otkOnlyResp "tok3" 7, otkOnlyResp "tok4" 7]).map emitsOTKCount =
        [true, false, true, false]) ∧
    ((runSyncIterations
      { otkCountSent := false
        prevOTKCount := { curve25519 := 0, signedCurve25519 := 0 }
        target := sampleTarget }
      [otkOnlyResp "tok1" 5, otkOnlyResp "tok2" 5,
       otkOnlyResp "tok3" 7, otkOnlyResp "tok4" 7]).map emitsTransaction =
        [true, false, true, false]) := by
  decide

/-- Claim C2 counterexample: when the id is absent, GetOrSetTarget installs
the candidate into the map but returns none, not the candidate. -/
theorem c2_counterexample :
    GetOrSetTarget [] "T1" (some sampleTarget) =
      (none, [("T1", sampleTarget)]) ∧
    (none : Option SyncTarget) ≠ some sampleTarget := by
  decide

/-- Claim C2 (amended): GetOrSetTarget returns the pre-existing entry when
one is present under the id (the candidate is discarded and the map is
unchanged); otherwise it installs the candidate into the map but returns
none — the caller detects the absence and continues with its own reference
to the candidate. -/
theorem c2_amended_get_or_set (targets : List (String × SyncTarget))
    (appserviceID : String) (cand : SyncTarget) :
    (∀ t, targets.lookup appserviceID = some t →
      GetOrSetTarget targets appserviceID (some cand) = (some t, targets)) ∧
    (targets.lookup appserviceID = none →
      GetOrSetTarget targets appserviceID (some cand) =
        (none, (appserviceID, cand) :: targets)) := by
  constructor
  · intro t ht
    simp [GetOrSetTarget, ht]
  · intro h
    simp [GetOrSetTarget, h]

/-- Witness for c2_amended_get_or_set: a hit on a one-entry registry keeps
the stored entry, and a miss on the empty registry installs the candidate
while returning none. -/
theorem c2_amended_witness :
    GetOrSetTarget [("T1", sampleTarget)] "T1" (some sampleTarget2) =
      (some sampleTarget, [("T1", sampleTarget)]) ∧
    GetOrSetTarget [] "T1" (some sampleTarget2) =
      (none, [("T1", sampleTarget2)]) :=
  ⟨(c2_amended_get_or_set [("T1", sampleTarget)] "T1" sampleTarget2).1
      sampleTarget (by decide),
   (c2_amended_get_or_set [] "T1" sampleTarget2).2 (by decide)⟩

/-- Claim C3 counterexample: when the sync loop terminates because the
dispatcher reported the websocket-not-connected condition, the supervisor
does send an error notification (kind M_UNKNOWN) to the target, contrary to
the claim that none is sent for this condition. -/
theorem c3_counterexample :
    notificationFor (SyncError.txnSend TryOutcome.wsNotConnected) =
      some ProxyError.unknown ∧
    notificationFor (SyncError.txnSend TryOutcome.wsNotConnected) ≠ none := by
  decide

/-- Claim C3 (amended): both reports of the websocket-not-connected
condition — a non-2xx JSON error body with the FI.MAU.WS_NOT_CONNECTED code,
and a synchronous per-target websocket-not-connected status — make the
dispatcher stop retrying that send and propagate the condition; the sync
loop then exits with an error wrapping it, and the supervisor attempts one
best-effort M_UNKNOWN error notification. -/
theorem c3_amended_ws_not_connected :
    postTransaction sampleTarget { expectSynchronous := true } true
      (HTTPResult.ok 502 (some
        { errcode := "FI.MAU.WS_NOT_CONNECTED"
          synchronous := false
          sentTo := none })) = (true, PostOutcome.wsNotConnected) ∧
    postTransaction sampleTarget { expectSynchronous := true } true
      (HTTPResult.ok 200 (some
        { errcode := ""
          synchronous := true
          sentTo := some [("T1", "websocket-not-connected")] })) =
      (true, PostOutcome.wsNotConnected) ∧
    tryPostStep false PostOutcome.wsNotConnected =
      TryAction.finish TryOutcome.wsNotConnected ∧
    syncAfterDelivery TryOutcome.wsNotConnected =
      some (SyncError.txnSend TryOutcome.wsNotConnected) ∧
    notificationFor (SyncError.txnSend TryOutcome.wsNotConnected) =
      some ProxyError.unknown := by
  decide

/-- Claim C4 counterexample: with an empty hs_token the attempt fails before
any HTTP request is issued (first component false), but the dispatcher
classifies that failure as retryable and re-attempts the send under its
backoff schedule, contrary to the no-retry part of the claim. -/
theorem c4_counterexample :
    postTransaction noTokenTarget { expectSynchronous := false } true
      (HTTPResult.ok 200 (some
        { errcode := "", synchronous := false, sentTo := none })) =
      (false, PostOutcome.retryableError "target is missing hs_token") ∧
    tryPostStep false
      (PostOutcome.retryableError "target is missing hs_token") =
      TryAction.retryAfterBackoff := by
  decide

/-- Claim C4 (amended): for every target whose hs_token is empty, a delivery
attempt fails without issuing an HTTP request to the downstream address, but
the failure is an ordinary retryable error: the dispatcher re-attempts the
send under its backoff schedule. -/
theorem c4_amended_missing_token (target : SyncTarget) (cfg : Config)
    (httpResult : HTTPResult) (h : target.hsToken = "") :
    postTransaction target cfg true httpResult =
      (false, PostOutcome.retryableError "target is missing hs_token") ∧
    tryPostStep false (postTransaction target cfg true httpResult).2 =
      TryAction.retryAfterBackoff := by
  simp [postTransaction, h, tryPostStep]

/-- Witness for c4_amended_missing_token at the concrete token-less target
and a transport-error exchange. -/
theorem c4_amended_witness :
    postTransaction noTokenTarget { expectSynchronous := false } true
      HTTPResult.transportError =
      (false, PostOutcome.retryableError "target is missing hs_token") ∧
    tryPostStep false (postTransaction noTokenTarget
      { expectSynchronous := false } true HTTPResult.transportError).2 =
      TryAction.retryAfterBackoff :=
  c4_amended_missing_token noTokenTarget { expectSynchronous := false }
    HTTPResult.transportError rfl

/-- Claim C6: for target T1 on an HTTP-success response, a synchronous body
with sent_to mapping T1 to ok succeeds; a synchronous body without sent_to
is a retryable failure; and a non-synchronous body under the
expect-synchronous configuration is a retryable failure. -/
theorem c6_synchronous_confirmation :
    postTransaction sampleTarget { expectSynchronous := true } true
      (HTTPResult.ok 200 (some
        { errcode := "", synchronous := true, sentTo := some [("T1", "ok")] }))
      = (true, PostOutcome.success) ∧
    postTransaction sampleTarget { expectSynchronous := true } true
      (HTTPResult.ok 200 (some
        { errcode := "", synchronous := true, sentTo := none })) =
      (true, PostOutcome.retryableError
        "synchronous confirmation missing sent_to field") ∧
    tryPostStep false (PostOutcome.retryableError
      "synchronous confirmation missing sent_to field") =
      TryAction.retryAfterBackoff ∧
    postTransaction sampleTarget { expectSynchronous := true } true
      (HTTPResult.ok 200 (some
        { errcode := "", synchronous := false, sentTo := none })) =
      (true, PostOutcome.retryableError
        "server did not confirm synchronous delivery support") ∧
    tryPostStep false (PostOutcome.retryableError
      "server did not confirm synchronous delivery support") =
      TryAction.retryAfterBackoff := by
  decide

/-- The sync retry delay never exceeds the cap. -/
theorem syncRetryDelay_le_max (n : Nat) :
    syncRetryDelay n ≤ maxSyncRetryInterval := by
  induction n with
  | zero =>
    simp only [syncRetryDelay, initialSyncRetrySleep, maxSyncRetryInterval]
    omega
  | succ n ih =>
    simp only [syncRetryDelay, nextSyncRetryIn, maxSyncRetryInterval] at *
    split <;> omega

/-- The sync retry delay is non-decreasing along a failure streak. -/
theorem syncRetryDelay_mono (n : Nat) :
    syncRetryDelay n ≤ syncRetryDelay (n + 1) := by
  have h := syncRetryDelay_le_max n
  simp only [syncRetryDelay, nextSyncRetryIn, maxSyncRetryInterval] at *
  split <;> omega

/-- The transaction retry delay never exceeds the cap. -/
theorem transactionRetryDelay_le_max (n : Nat) :
    transactionRetryDelay n ≤ maxTransactionRetryInterval := by
  induction n with
  | zero =>
    simp only [transactionRetryDelay, initialTransactionRetrySleep,
      maxTransactionRetryInterval]
    omega
  | succ n ih =>
    simp only [transactionRetryDelay, nextTransactionRetryIn,
      maxTransactionRetryInterval] at *
    split <;> omega

/-- The transaction retry delay is non-decreasing along a failure streak. -/
theorem transactionRetryDelay_mono (n : Nat) :
    transactionRetryDelay n ≤ transactionRetryDelay (n + 1) := by
  have h := transactionRetryDelay_le_max n
  simp only [transactionRetryDelay, nextTransactionRetryIn,
    maxTransactionRetryInterval] at *
  split <;> omega

/-- Claim C7: in both the sync loop and the transaction dispatcher, the
delays of an uninterrupted retry streak start at 2 seconds, are
non-decreasing, and never exceed 120 seconds; and a sync iteration that does
not need to retry resets the delay to 2 seconds. -/
theorem c7_backoff_monotone (n : Nat) :
    syncRetryDelay 0 = initialSyncRetrySleep ∧
    transactionRetryDelay 0 = initialTransactionRetrySleep ∧
    initialSyncRetrySleep = 2000000000 ∧
    initialTransactionRetrySleep = 2000000000 ∧
    syncRetryDelay n ≤ syncRetryDelay (n + 1) ∧
    syncRetryDelay n ≤ maxSyncRetryInterval ∧
    transactionRetryDelay n ≤ transactionRetryDelay (n + 1) ∧
    transactionRetryDelay n ≤ maxTransactionRetryInterval ∧
    maxSyncRetryInterval = 120000000000 ∧
    maxTransactionRetryInterval = 120000000000 ∧
    (∀ r, syncRetryInAfterIteration r false = 2000000000) :=
  ⟨rfl, rfl, rfl, rfl, syncRetryDelay_mono n, syncRetryDelay_le_max n,
   transactionRetryDelay_mono n, transactionRetryDelay_le_max n, rfl, rfl,
   fun _ => rfl⟩

/-- SetNextBatch leaves the in-memory record holding the requested token,
whether or not a database write was needed. -/
theorem SetNextBatch_fst_nextBatch (t : SyncTarget) (nb : String) :
    (SetNextBatch t nb).1.nextBatch = nb := by
  simp only [SetNextBatch]
  split
  · next h => exact h
  · rfl

/-- Claim C9: an iteration whose successful response triggers no emission
(no to-device events, empty device-list changed set, one-time-key count
unchanged and already sent) makes no delivery attempt and still stores the
response's next-batch token before the next long-poll. -/
theorem c9_no_trigger_persists_token (st : SyncLoopState) (resp : RespSync)
    (h1 : resp.toDeviceEvents = []) (h2 : resp.deviceLists.changed = [])
    (h3 : resp.deviceOTKCount = st.prevOTKCount)
    (h4 : st.otkCountSent = true) :
    (syncIteration st resp).1 = [SyncEffect.setNextBatch resp.nextBatch] ∧
    (syncIteration st resp).2.target.nextBatch = resp.nextBatch := by
  have hc : syncEmitCondition resp st.prevOTKCount st.otkCountSent = false := by
    simp [syncEmitCondition, h1, h2, h3, h4]
  simp [syncIteration, hc, SetNextBatch_fst_nextBatch]

/-- Witness for c9_no_trigger_persists_token: a response repeating the
already-sent count 5 leads to a token-only iteration. -/
theorem c9_witness :
    (syncIteration otkSentState (otkOnlyResp "tok9" 5)).1 =
      [SyncEffect.setNextBatch "tok9"] ∧
    (syncIteration otkSentState (otkOnlyResp "tok9" 5)).2.target.nextBatch =
      "tok9" :=
  c9_no_trigger_persists_token otkSentState (otkOnlyResp "tok9" 5)
    rfl rfl rfl rfl

/-- Claim C10: the PUT handler's path for an already-registered target never
updates isProxy — the updated record keeps the stored flag; a request
agreeing on the five compared fields but differing in is_proxy results in no
change and no storage write; and otherwise exactly the five credential and
address fields are copied from the request and an upsert is issued. -/
theorem c10_put_ignores_isProxy (target req : SyncTarget) :
    (startSyncPutExisting target req).1.isProxy = target.isProxy ∧
    startSyncPutExisting target
      { req with
        botAccessToken := target.botAccessToken
        hsToken := target.hsToken
        address := target.address
        userID := target.userID
        deviceID := target.deviceID
        isProxy := !target.isProxy } = (target, false) ∧
    ((startSyncPutExisting target req).1 = target ∧
      (startSyncPutExisting target req).2 = false ∨
     (startSyncPutExisting target req).1 =
      { target with
        botAccessToken := req.botAccessToken
        hsToken := req.hsToken
        address := req.address
        userID := req.userID
        deviceID := req.deviceID } ∧
      (startSyncPutExisting target req).2 = true) := by
  refine ⟨?_, ?_, ?_⟩
  · simp only [startSyncPutExisting]
    split <;> rfl
  · simp [startSyncPutExisting]
  · simp only [startSyncPutExisting]
    split
    · exact Or.inr ⟨rfl, rfl⟩
    · exact Or.inl ⟨rfl, rfl⟩

/-- Reading another thread's program counter through setPC. -/
theorem setPC_pc_ne (s : StartState) (t : Nat) (p : StartPC) (u : Nat)
    (h : u ≠ t) : (setPC s t p).pc u = s.pc u := by
  simp [setPC, h]

/-- One Start step preserves the lock invariant: every thread inside the
lock-protected section is the mutex holder. -/
theorem startStep_inv (s s' : StartState) (hstep : StartStep s s')
    (ih : ∀ t, holdsLockSection (s.pc t) → s.lockHolder = some t) :
    ∀ t, holdsLockSection (s'.pc t) → s'.lockHolder = some t := by
  cases hstep with
  | checkTrue t0 h hr =>
    intro t ht
    by_cases e : t = t0
    · subst e
      simp [setPC, holdsLockSection] at ht
    · rw [setPC_pc_ne s t0 _ t e] at ht
      exact ih t ht
  | checkFalse t0 h hr =>
    intro t ht
    by_cases e : t = t0
    · subst e
      simp [setPC, holdsLockSection] at ht
    · rw [setPC_pc_ne s t0 _ t e] at ht
      exact ih t ht
  | cancel t0 h =>
    intro t ht
    by_cases e : t = t0
    · subst e
      simp [setPC, holdsLockSection] at ht
    · rw [setPC_pc_ne s t0 _ t e] at ht
      exact ih t ht
  | acquire t0 h hfree =>
    intro t ht
    by_cases e : t = t0
    · subst e
      rfl
    · have hpc : ({ setPC s t0 StartPC.enterLoop with
          lockHolder := some t0 } : StartState).pc t = s.pc t :=
        setPC_pc_ne s t0 _ t e
      rw [hpc] at ht
      have := ih t ht
      rw [hfree] at this
      exact absurd this (by simp)
  | enter t0 h =>
    intro t ht
    by_cases e : t = t0
    · subst e
      exact ih t (by rw [h]; exact Or.inl rfl)
    · have hpc : ({ setPC s t0 StartPC.inLoop with
          running := true } : StartState).pc t = s.pc t :=
        setPC_pc_ne s t0 _ t e
      rw [hpc] at ht
      exact ih t ht
  | loopEnd t0 h =>
    intro t ht
    by_cases e : t = t0
    · subst e
      exact ih t (by rw [h]; exact Or.inr (Or.inl rfl))
    · rw [setPC_pc_ne s t0 _ t e] at ht
      exact ih t ht
  | cleanup t0 h =>
    intro t ht
    by_cases e : t = t0
    · subst e
      exact ih t (by rw [h]; exact Or.inr (Or.inr (Or.inl rfl)))
    · have hpc : ({ setPC s t0 StartPC.releaseLock with
          running := false } : StartState).pc t = s.pc t :=
        setPC_pc_ne s t0 _ t e
      rw [hpc] at ht
      exact ih t ht
  | release t0 h =>
    intro t ht
    by_cases e : t = t0
    · subst e
      simp [setPC, holdsLockSection] at ht
    · have hpc : ({ setPC s t0 StartPC.done with
          lockHolder := none } : StartState).pc t = s.pc t :=
        setPC_pc_ne s t0 _ t e
      rw [hpc] at ht
      have h1 := ih t ht
      have h2 := ih t0 (by rw [h]; exact Or.inr (Or.inr (Or.inr rfl)))
      rw [h1] at h2
      exact absurd (Option.some.inj h2) e

/-- In every reachable state of the Start semantics, a thread inside the
lock-protected section is the mutex holder. -/
theorem startReachable_inv (s : StartState) (h : StartReachable s) :
    ∀ t, holdsLockSection (s.pc t) → s.lockHolder = some t := by
  induction h with
  | init s hi =>
    intro t ht
    rcases hi with ⟨hl, hr, hpc⟩
    rcases hpc t with h1 | h1 <;> rw [h1] at ht <;>
      simp [holdsLockSection] at ht
  | step s s' hr hst ih =>
    exact startStep_inv s s' hst ih

/-- Claim C8: in every state reachable under repeated, arbitrarily
interleaved Start calls on one target, at most one thread is running the
sync loop; a new loop can only begin once the per-target mutex is free,
which only happens after the previous run's cleanup and release — and the
path to the mutex first cancels a loop observed running. -/
theorem c8_at_most_one_loop (s : StartState) (hs : StartReachable s)
    (t u : Nat) (ht : s.pc t = StartPC.inLoop)
    (hu : s.pc u = StartPC.inLoop) : t = u := by
  have h1 := startReachable_inv s hs t (by rw [ht]; exact Or.inr (Or.inl rfl))
  have h2 := startReachable_inv s hs u (by rw [hu]; exact Or.inr (Or.inl rfl))
  rw [h1] at h2
  exact Option.some.inj h2

/-- The demo state with thread 0 inside the loop is reachable. -/
theorem startDemo3_reachable : StartReachable startDemo3 := by
  have h0 : StartReachable startDemo0 :=
    StartReachable.init startDemo0 ⟨rfl, rfl, fun _ => Or.inl rfl⟩
  have h1 : StartReachable startDemo1 :=
    StartReachable.step startDemo0 startDemo1 h0
      (StartStep.checkFalse startDemo0 0 rfl rfl)
  have h2 : StartReachable startDemo2 :=
    StartReachable.step startDemo1 startDemo2 h1
      (StartStep.acquire startDemo1 0 rfl rfl)
  exact StartReachable.step startDemo2 startDemo3 h2
    (StartStep.enter startDemo2 0 rfl)

/-- Witness for c8_at_most_one_loop at the reachable demo state in which
thread 0 runs the loop. -/
theorem c8_witness : (0 : Nat) = 0 :=
  c8_at_most_one_loop startDemo3 startDemo3_reachable 0 0 rfl rfl

end Syncproxy
